import Mathlib

/-- Verification target: the flattening core of `growthatco/template`,
function `json2env` in `src/scripts/lib/env.py`.

The Python function reads a JSON object and produces `KEY=VALUE` lines.
It appends entries to a module-global list `_env`, upper-cases keys,
recurses into nested objects with a composed key followed by an
underscore, and — only in the outermost (non-nested) call — returns the
newline-join of `_env` when its local per-call counter reaches the number
of entries of its own mapping, a check performed inside the iteration
loop.

We embed the function as a pure state-passing function: the global `_env`
becomes an explicit `List String` argument threaded in and out, Python
`None` becomes `Option.none`, and the `AttributeError` raised by
`val.items()` on a non-dict value becomes `Except.error`. -/
inductive Json where
  | str (s : String)
  | num (n : Int)
  | bool (b : Bool)
  | null
  | arr (xs : List Json)
  | obj (fields : List (String × Json))

/-- Is this value a JSON object?  Mirrors Python `isinstance(v, dict)`. -/
def Json.isObj : Json → Bool
  | .obj _ => true
  | _ => false

mutual
/-- Python `repr` of a parsed JSON value.  For strings we render the
common case `'text'` (embedded-quote escaping never arises in the inputs
considered here); for other scalars `repr` and `str` agree:
`True` / `False` / `None`, decimal integers. -/
def pyRepr : Json → String
  | .str s => "\x27" ++ s ++ "\x27"
  | .num n => toString n
  | .bool true => "True"
  | .bool false => "False"
  | .null => "None"
  | .arr xs => "[" ++ String.intercalate ", " (pyReprList xs) ++ "]"
  | .obj fs => "\x7b" ++ String.intercalate ", " (pyReprFields fs) ++ "\x7d"

/-- Python `repr` of each element of a list, in order. -/
def pyReprList : List Json → List String
  | [] => []
  | x :: xs => pyRepr x :: pyReprList xs

/-- Python `repr` of each `key: value` item of a dict, in order. -/
def pyReprFields : List (String × Json) → List String
  | [] => []
  | kv :: fs => ("\x27" ++ kv.1 ++ "\x27: " ++ pyRepr kv.2) :: pyReprFields fs
end

/-- Python `str` of a parsed JSON value, as used by the f-string
`f"..."` on line 49 of `env.py`: a string renders as its own text, every
other value via `repr`. -/
def pyStr : Json → String
  | .str s => s
  | v => pyRepr v

/-- Python `str.upper` on one character, restricted to ASCII (the only
case exercised by this repository): a lower-case ASCII letter maps to its
upper-case form, every other character is unchanged. -/
def charUpper (c : Char) : Char :=
  if c.isLower then Char.ofNat (c.toNat - 32) else c

/-- Python `str.upper` on a string (ASCII): applied characterwise,
mirroring `k.upper()` on line 27 of `env.py`. -/
def strUpper (s : String) : String :=
  String.mk (s.data.map charUpper)

/-- The `for k, v in val.items():` loop of `json2env` (lines 23-65).
Arguments: remaining items, `total = len(val.items())` of the current
call's own mapping, the local counter `incr`, the `_key` argument, the
`_nested` flag, and the current contents of the global `_env` list.
Returns the final `_env` contents together with the call's return value:
`some` joined text from the early `return` inside the loop (line 65),
`none` for Python's implicit `None` when the loop ends without it. -/
def json2envLoop : List (String × Json) → Nat → Nat → String → Bool → List String →
    List String × Option String
  | [], _, _, _, _, env => (env, none)
  | (k0, Json.obj fs) :: rest, total, incr, key, nested, env =>
    let k := strUpper k0
    let incr1 := incr + 1
    let env1 := (json2envLoop fs fs.length 0 (key ++ k ++ "_") true env).1
    if nested = false ∧ incr1 = total then
      (env1, some (String.intercalate "\n" env1))
    else
      json2envLoop rest total incr1 key nested env1
  | (k0, v) :: rest, total, incr, key, nested, env =>
    let k := strUpper k0
    let incr1 := incr + 1
    let env1 := env ++ [key ++ k ++ "=" ++ pyStr v]
    if nested = false ∧ incr1 = total then
      (env1, some (String.intercalate "\n" env1))
    else
      json2envLoop rest total incr1 key nested env1

/-- Function `json2env(jsonstr, _key="", _nested=False)` of
`src/scripts/lib/env.py`, after `json.loads`: `val.items()` raises an
`AttributeError` unless the parsed value is a dict; otherwise the loop
above runs over the items.  The module-global `_env` is passed in and
returned explicitly; the recursive call `json2env(json.dumps(v), key,
True)` on line 42 is the `Json.obj` arm of the loop, since dumping and
re-parsing a dict is the identity on the parsed value. -/
def json2env (val : Json) (key : String) (nested : Bool) (env : List String) :
    Except String (List String × Option String) :=
  match val with
  | Json.obj fields => Except.ok (json2envLoop fields fields.length 0 key nested env)
  | _ => Except.error "AttributeError: object has no attribute items"

/-- One character of a POSIX shell identifier body: alphanumeric or
underscore. -/
def isShellIdentChar (c : Char) : Bool := c.isAlphanum || c == '_'

/-- A valid POSIX shell identifier: nonempty, the first character a
letter or underscore, the rest alphanumeric or underscore. -/
def isShellIdent (s : String) : Bool :=
  match s.data with
  | [] => false
  | c :: cs => (c.isAlpha || c == '_') && cs.all isShellIdentChar

/-- Processing one entry whose value is not a dict takes the `else`
branch of line 44: it appends exactly one assignment line and then either
flushes (line 57) or continues with the rest of the items. -/
theorem json2envLoop_cons_scalar (kv : String × Json) (hv : kv.2.isObj = false)
    (rest : List (String × Json)) (total incr : Nat) (key : String) (nested : Bool)
    (env : List String) :
    json2envLoop (kv :: rest) total incr key nested env =
      if nested = false ∧ incr + 1 = total
      then (env ++ [key ++ strUpper kv.1 ++ "=" ++ pyStr kv.2],
            some (String.intercalate "\n" (env ++ [key ++ strUpper kv.1 ++ "=" ++ pyStr kv.2])))
      else json2envLoop rest total (incr + 1) key nested
             (env ++ [key ++ strUpper kv.1 ++ "=" ++ pyStr kv.2]) := by
  obtain ⟨k0, v⟩ := kv
  cases v <;> simp_all [json2envLoop, Json.isObj]

/-- A non-nested run of the loop over entries none of which is a dict
appends one assignment line per entry, in order, and flushes the whole
accumulator at the last entry. -/
theorem json2envLoop_flat (rest : List (String × Json)) :
    ∀ (incr : Nat) (key : String) (env : List String), rest ≠ [] →
    (∀ kv ∈ rest, kv.2.isObj = false) →
    json2envLoop rest (incr + rest.length) incr key false env =
      (env ++ rest.map (fun kv => key ++ strUpper kv.1 ++ "=" ++ pyStr kv.2),
       some (String.intercalate "\n"
         (env ++ rest.map (fun kv => key ++ strUpper kv.1 ++ "=" ++ pyStr kv.2)))) := by
  induction rest with
  | nil => intro _ _ _ h _; exact absurd rfl h
  | cons kv rest ih =>
    intro incr key env _ hall
    rw [json2envLoop_cons_scalar kv (hall kv (by simp)) rest]
    cases rest with
    | nil => simp
    | cons kv2 rest2 =>
      rw [if_neg (by simp)]
      have h2 : (incr + 1) + (kv2 :: rest2).length = incr + (kv :: kv2 :: rest2).length := by
        simp; omega
      have := ih (incr + 1) key (env ++ [key ++ strUpper kv.1 ++ "=" ++ pyStr kv.2])
        (by simp) (fun kv h => hall kv (by simp [h]))
      rw [h2] at this
      rw [this]
      simp

/-- Upper-casing leaves every character that is not a letter unchanged. -/
theorem charUpper_of_not_alpha (c : Char) (h : c.isAlpha = false) : charUpper c = c := by
  have : c.isLower = false := by
    simp [Char.isAlpha] at h
    exact h.2
  simp [charUpper, this]

/-- A string containing a character that is neither alphanumeric nor an
underscore is not a valid shell identifier. -/
theorem isShellIdent_mk_false (l : List Char) (c : Char) (hc : c ∈ l)
    (hbad : isShellIdentChar c = false) : isShellIdent (String.mk l) = false := by
  cases l with
  | nil => simp at hc
  | cons d cs =>
    have hdata : (String.mk (d :: cs)).data = d :: cs := rfl
    simp only [isShellIdent, hdata]
    rcases List.mem_cons.mp hc with h | h
    · subst h
      simp [isShellIdentChar, Char.isAlphanum] at hbad
      simp [hbad.1.1, hbad.2]
    · have : cs.all isShellIdentChar = false := by
        rw [List.all_eq_false]
        exact ⟨c, h, by simp [hbad]⟩
      simp [this]

/-- Claim C1: the accumulator is NOT exclusive to one top-level call.
The module-global `_env` persists across calls, so a first call on
input with key `a` and value `1` leaves `A=1` in the global list, and a
second top-level call on the unrelated input with key `b` and value `2`
returns the text joining `A=1` and `B=2` — its output contains the entry
`A=1` derived from the first call's input, contradicting the claimed
invariant.  This theorem evaluates the embedded code at that failing
input pair. -/
theorem c1_accumulator_shared_across_calls :
    json2env (Json.obj [("a", Json.num 1)]) "" false [] =
      Except.ok (["A=1"], some "A=1")
    ∧ json2env (Json.obj [("b", Json.num 2)]) "" false ["A=1"] =
      Except.ok (["A=1", "B=2"], some "A=1\nB=2")
    ∧ "A=1" ∈ ["A=1", "B=2"] := by
  refine ⟨?_, ?_, by simp⟩
  · simp [json2env, json2envLoop, strUpper, charUpper, pyStr, pyRepr]
    constructor <;> decide
  · simp [json2env, json2envLoop, strUpper, charUpper, pyStr, pyRepr]
    decide

/-- Claim C2, counterexample: on the empty top-level mapping a fresh call
does NOT return empty text.  The flush check on line 57 of `env.py` sits
inside the `for` loop, which never runs for an empty dict, so the
function falls off its end and returns `None` rather than the empty
string claimed. -/
theorem c2_counterexample_empty_root_not_empty_text :
    json2env (Json.obj []) "" false [] ≠ Except.ok ([], some "") := by
  simp [json2env, json2envLoop]

/-- Claim C2, amended: for the empty Mapping as top-level input, flatten
terminates immediately, appends nothing to the accumulator, and returns
no value at all (Python `None`, not empty text): the counter-based flush
is only checked inside the per-entry loop, so with zero entries it never
fires. -/
theorem c2_amended_empty_root_returns_none (env : List String) :
    json2env (Json.obj []) "" false env = Except.ok (env, none) := by
  simp [json2env, json2envLoop]

/-- Claim C3: a fresh top-level call on a nonempty flat mapping (no dict
values) produces exactly one line per entry, in the mapping's original
order, the i-th line being the upper-cased i-th key, `=`, and the
stringified i-th value; the returned text is the newline-join of those
lines and their number equals the number of entries. -/
theorem c3_flat_mapping_lines (fields : List (String × Json)) (h1 : fields ≠ [])
    (h2 : ∀ kv ∈ fields, kv.2.isObj = false) :
    json2env (Json.obj fields) "" false [] =
      Except.ok (fields.map (fun kv => strUpper kv.1 ++ "=" ++ pyStr kv.2),
        some (String.intercalate "\n"
          (fields.map (fun kv => strUpper kv.1 ++ "=" ++ pyStr kv.2))))
    ∧ (fields.map (fun kv => strUpper kv.1 ++ "=" ++ pyStr kv.2)).length = fields.length := by
  refine ⟨?_, by simp⟩
  have := json2envLoop_flat fields 0 "" [] h1 h2
  rw [Nat.zero_add] at this
  simp only [json2env, this, List.nil_append]
  have hmap : (fields.map fun kv => "" ++ strUpper kv.1 ++ "=" ++ pyStr kv.2) =
      fields.map fun kv => strUpper kv.1 ++ "=" ++ pyStr kv.2 := rfl
  rw [hmap]

/-- Witness for C3, at the spec's own case-normalization example: the
single-entry mapping with key `lowerKey` and string value `v` satisfies
the hypotheses, and the produced single line is `LOWERKEY=v`. -/
theorem c3_flat_mapping_lines_witness :
    ([("lowerKey", Json.str "v")] ≠ ([] : List (String × Json)))
    ∧ (∀ kv ∈ [("lowerKey", Json.str "v")], kv.2.isObj = false)
    ∧ (json2env (Json.obj [("lowerKey", Json.str "v")]) "" false [] =
        Except.ok ([("lowerKey", Json.str "v")].map
            (fun kv => strUpper kv.1 ++ "=" ++ pyStr kv.2),
          some (String.intercalate "\n" ([("lowerKey", Json.str "v")].map
            (fun kv => strUpper kv.1 ++ "=" ++ pyStr kv.2))))
       ∧ ([("lowerKey", Json.str "v")].map
            (fun kv => strUpper kv.1 ++ "=" ++ pyStr kv.2)).length =
          [("lowerKey", Json.str "v")].length)
    ∧ strUpper "lowerKey" ++ "=" ++ pyStr (Json.str "v") = "LOWERKEY=v" :=
  ⟨by simp, by decide,
   c3_flat_mapping_lines [("lowerKey", Json.str "v")] (by simp) (by decide),
   by simp [strUpper, charUpper, pyStr]⟩

/-- Claim C4: a fresh flatten of the triple-nested input mapping `a` to
`b` to `c` to `3` produces exactly the single line `A_B_C=3` — the key
path is the underscore-joined, upper-cased chain of keys from the root
to the scalar. -/
theorem c4_triple_nesting_keypath :
    json2env (Json.obj [("a", Json.obj [("b", Json.obj [("c", Json.num 3)])])]) "" false [] =
      Except.ok (["A_B_C=3"], some "A_B_C=3") := by
  simp [json2env, json2envLoop, strUpper, charUpper, pyStr, pyRepr]
  constructor <;> decide

/-- Claim C5: a fresh flatten of the input mapping `a` to the two-entry
mapping of `b` to `1` and `c` to `2` produces exactly the two lines
`A_B=1` and `A_C=2` in that order: the recursion appends into the same
accumulator as the ancestor chain, depth-first and order-preserving. -/
theorem c5_nested_depth_first_order :
    json2env (Json.obj [("a", Json.obj [("b", Json.num 1), ("c", Json.num 2)])]) "" false [] =
      Except.ok (["A_B=1", "A_C=2"], some "A_B=1\nA_C=2") := by
  simp [json2env, json2envLoop, strUpper, charUpper, pyStr, pyRepr]
  decide

/-- Claim C6: a top-level input whose parsed value is not a mapping (a
list or a scalar) makes `val.items()` fail with an `AttributeError`; no
empty or partial result is returned. -/
theorem c6_non_mapping_root_fails (val : Json) (key : String) (nested : Bool)
    (env : List String) (h : val.isObj = false) :
    json2env val key nested env =
      Except.error "AttributeError: object has no attribute items" := by
  cases val <;> simp_all [json2env, Json.isObj]

/-- Witness for C6, at the concrete non-mapping root that is the
one-element list holding `1`. -/
theorem c6_non_mapping_root_fails_witness :
    Json.isObj (Json.arr [Json.num 1]) = false
    ∧ json2env (Json.arr [Json.num 1]) "" false [] =
        Except.error "AttributeError: object has no attribute items" :=
  ⟨by decide, c6_non_mapping_root_fails (Json.arr [Json.num 1]) "" false [] (by decide)⟩

/-- Claim C7: an entry whose value is a list is treated exactly like a
scalar — replacing it by the string scalar equal to its stringification
changes nothing — and processing it appends exactly one assignment line
holding the whole list stringified as a unit, with no recursion into
it. -/
theorem c7_sequence_treated_as_scalar (k0 : String) (xs : List Json)
    (rest : List (String × Json)) (total incr : Nat) (key : String) (nested : Bool)
    (env : List String) :
    json2envLoop ((k0, Json.arr xs) :: rest) total incr key nested env =
      json2envLoop ((k0, Json.str (pyStr (Json.arr xs))) :: rest) total incr key nested env
    ∧ json2envLoop ((k0, Json.arr xs) :: rest) total incr key nested env =
      (if nested = false ∧ incr + 1 = total
       then (env ++ [key ++ strUpper k0 ++ "=" ++ pyStr (Json.arr xs)],
             some (String.intercalate "\n"
               (env ++ [key ++ strUpper k0 ++ "=" ++ pyStr (Json.arr xs)])))
       else json2envLoop rest total (incr + 1) key nested
              (env ++ [key ++ strUpper k0 ++ "=" ++ pyStr (Json.arr xs)])) := by
  constructor
  · simp [json2envLoop, pyStr]
  · rw [json2envLoop_cons_scalar (k0, Json.arr xs) rfl]

/-- Claim C8: native stringification renders boolean true as `True`,
boolean false as `False` and null as `None`, and those forms appear in
the produced assignment lines of a fresh flatten. -/
theorem c8_bool_null_native_stringification :
    pyStr (Json.bool true) = "True"
    ∧ pyStr (Json.bool false) = "False"
    ∧ pyStr Json.null = "None"
    ∧ json2env (Json.obj [("a", Json.bool true), ("b", Json.bool false), ("c", Json.null)])
        "" false [] =
      Except.ok (["A=True", "B=False", "C=None"], some "A=True\nB=False\nC=None") := by
  refine ⟨by simp [pyStr, pyRepr], by simp [pyStr, pyRepr], by simp [pyStr, pyRepr], ?_⟩
  simp [json2env, json2envLoop, strUpper, charUpper, pyStr, pyRepr]
  decide

/-- Claim C9: an entry whose value is the empty mapping recurses and
appends nothing — the accumulator is unchanged whether the step flushes
or continues — so a fresh flatten of the mapping of `a` to the empty
mapping returns the empty text, and a fresh flatten of that entry
followed by `b` mapped to `1` returns exactly the single line `B=1`. -/
theorem c9_empty_nested_mapping_contributes_nothing (k0 : String)
    (rest : List (String × Json)) (total incr : Nat) (key : String) (nested : Bool)
    (env : List String) :
    json2envLoop ((k0, Json.obj []) :: rest) total incr key nested env =
      (if nested = false ∧ incr + 1 = total
       then (env, some (String.intercalate "\n" env))
       else json2envLoop rest total (incr + 1) key nested env)
    ∧ json2env (Json.obj [("a", Json.obj [])]) "" false [] = Except.ok ([], some "")
    ∧ json2env (Json.obj [("a", Json.obj []), ("b", Json.num 1)]) "" false [] =
        Except.ok (["B=1"], some "B=1") := by
  refine ⟨?_, ?_, ?_⟩
  · simp [json2envLoop]
  · simp [json2env, json2envLoop, strUpper, charUpper]
    decide
  · simp [json2env, json2envLoop, strUpper, charUpper, pyStr, pyRepr]
    constructor <;> decide

/-- Claim C10, counterexample: the key `a9` contains the non-letter
character `9`, yet its assignment line's left-hand side `A9` IS a valid
shell identifier — so "keys containing such characters yield assignment
lines whose left-hand side is not a valid shell identifier" fails at
this input. -/
theorem c10_counterexample_digit_key_valid_ident :
    ('9' ∈ "a9".data ∧ Char.isAlpha '9' = false)
    ∧ json2env (Json.obj [("a9", Json.num 1)]) "" false [] =
        Except.ok (["A9=1"], some "A9=1")
    ∧ isShellIdent "A9" = true := by
  refine ⟨by decide, ?_, by decide⟩
  simp [json2env, json2envLoop, strUpper, charUpper, pyStr, pyRepr]
  constructor <;> decide

/-- Claim C10, amended: the only transformation applied to a key is
characterwise upper-casing, so every non-letter character is preserved
verbatim in the output line; and a key containing a character that is
neither alphanumeric nor an underscore (such as a hyphen, dot or space)
yields an assignment line whose left-hand side is not a valid shell
identifier. -/
theorem c10_amended_upper_casing_only (k0 : String) (v : Json) (c : Char)
    (hv : v.isObj = false) (hc : c ∈ k0.data) (hletter : c.isAlpha = false) :
    json2env (Json.obj [(k0, v)]) "" false [] =
      Except.ok ([strUpper k0 ++ "=" ++ pyStr v], some (strUpper k0 ++ "=" ++ pyStr v))
    ∧ (strUpper k0).data = k0.data.map charUpper
    ∧ charUpper c = c
    ∧ c ∈ (strUpper k0).data
    ∧ (isShellIdentChar c = false → isShellIdent (strUpper k0) = false) := by
  refine ⟨?_, rfl, charUpper_of_not_alpha c hletter, ?_, ?_⟩
  · simp [json2env]
    rw [json2envLoop_cons_scalar (k0, v) hv]
    simp
    rfl
  · have : c ∈ k0.data.map charUpper := by
      have := List.mem_map_of_mem charUpper hc
      rwa [charUpper_of_not_alpha c hletter] at this
    exact this
  · intro hbad
    have hmem : c ∈ k0.data.map charUpper := by
      have := List.mem_map_of_mem charUpper hc
      rwa [charUpper_of_not_alpha c hletter] at this
    exact isShellIdent_mk_false _ c hmem hbad

/-- Witness for the amended C10, at the key `my-key` with value `1` and
the hyphen as the preserved non-letter character. -/
theorem c10_amended_upper_casing_only_witness :
    (Json.isObj (Json.num 1) = false ∧ '-' ∈ "my-key".data ∧ Char.isAlpha '-' = false)
    ∧ (json2env (Json.obj [("my-key", Json.num 1)]) "" false [] =
        Except.ok ([strUpper "my-key" ++ "=" ++ pyStr (Json.num 1)],
          some (strUpper "my-key" ++ "=" ++ pyStr (Json.num 1)))
      ∧ (strUpper "my-key").data = "my-key".data.map charUpper
      ∧ charUpper '-' = '-'
      ∧ '-' ∈ (strUpper "my-key").data
      ∧ (isShellIdentChar '-' = false → isShellIdent (strUpper "my-key") = false)) :=
  ⟨⟨by decide, by decide, by decide⟩,
   c10_amended_upper_casing_only "my-key" (Json.num 1) '-' (by decide) (by decide) (by decide)⟩
